import Mathlib

set_option maxRecDepth 4000

namespace UniRag

/-! Shallow embedding of the university-rag-assistant-system repository:
`app_utils/scraper.py` (frontier crawler and content extractors),
`app_utils/vectorstore.py` (index builder and collection loading) and
`app_utils/rag_pipeline.py` (retrieval bridge).  External collaborators
(HTTP fetching, BeautifulSoup parsing, pypdf page extraction, ChromaDB
storage, the embedding and LLM providers, the filesystem) are modelled at
their interface boundary; the control flow and data handling of the
repository's own code is translated directly. -/

mutual

/-- Parse tree of an HTML document as returned by the HTML-parsing
collaborator (BeautifulSoup): a text node, or an element with a (lowercased)
tag name, attributes, and children in document order. -/
inductive Html where
  | text (s : String)
  | elem (tag : String) (attrs : List (String × String)) (children : HtmlList)

inductive HtmlList where
  | nil
  | cons (head : Html) (tail : HtmlList)

end

/-- Build an `HtmlList` from a `List Html`. -/
def hl : List Html → HtmlList
  | [] => .nil
  | c :: cs => .cons c (hl cs)

mutual

/-- All text-node strings of a tree in document order; BeautifulSoup's
`get_text(separator)` joins exactly these with the separator. -/
def htmlTexts : Html → List String
  | .text s => [s]
  | .elem _ _ cs => htmlTextsList cs

def htmlTextsList : HtmlList → List String
  | .nil => []
  | .cons c cs => htmlTexts c ++ htmlTextsList cs

end

mutual

/-- Remove (`tag.extract()`) every element below the root whose tag name is
in `bad`, together with its whole subtree.  The root itself is the
document object and is never one of the removed tags. -/
def stripTags (bad : List String) : Html → Html
  | .text s => .text s
  | .elem n a cs => .elem n a (stripTagsList bad cs)

def stripTagsList (bad : List String) : HtmlList → HtmlList
  | .nil => .nil
  | .cons (.text s) cs => .cons (.text s) (stripTagsList bad cs)
  | .cons (.elem n a cs2) cs =>
    if n ∈ bad then stripTagsList bad cs
    else .cons (.elem n a (stripTagsList bad cs2)) (stripTagsList bad cs)

end

mutual

/-- The result of `soup.find_all("a", href=True)` in document order,
projected to the `href` attribute values. -/
def findLinks : Html → List String
  | .text _ => []
  | .elem n attrs cs =>
    (if n = "a" then
      match attrs.lookup "href" with
      | some h => [h]
      | none => []
    else []) ++ findLinksList cs

def findLinksList : HtmlList → List String
  | .nil => []
  | .cons c cs => findLinks c ++ findLinksList cs

end

/-- Auxiliary: does `pre` match an initial segment of `l`. -/
def prefixMatches : List Char → List Char → Bool
  | [], _ => true
  | _ :: _, [] => false
  | a :: as, b :: bs => a == b && prefixMatches as bs

/-- The whitespace characters Python's `str.strip()` and `str.splitlines()`
treat as blank (the ones that occur in this pipeline's text). -/
def isSpaceChar (c : Char) : Bool :=
  c == ' ' || c == '\t' || c == '\n' || c == '\r'

/-- Python's `str.strip()`: drop leading and trailing whitespace. -/
def pyStrip (s : String) : String :=
  ⟨((s.data.dropWhile isSpaceChar).reverse.dropWhile isSpaceChar).reverse⟩

/-- Python's `str.startswith(t)`. -/
def pyStartsWith (s t : String) : Bool :=
  prefixMatches t.data s.data

/-- Python's `str.endswith(t)`. -/
def pyEndsWith (s t : String) : Bool :=
  prefixMatches t.data.reverse s.data.reverse

/-- ASCII lowering of one character (the URLs and MIME types this pipeline
lowercases are ASCII). -/
def lowerChar (c : Char) : Char :=
  if 65 ≤ c.toNat ∧ c.toNat ≤ 90 then Char.ofNat (c.toNat + 32) else c

/-- Python's `str.lower()`. -/
def pyLower (s : String) : String :=
  ⟨s.data.map lowerChar⟩

/-- Python's `str.splitlines()` on `\n`-separated text (the only separator
`get_text(separator="\n")` produces): a trailing newline does not yield a
final empty line, and `"".splitlines() == []`. -/
def splitLinesAux : List Char → List Char → List String
  | [], [] => []
  | [], acc => [⟨acc.reverse⟩]
  | c :: cs, acc =>
    if c == '\n' then (⟨acc.reverse⟩ : String) :: splitLinesAux cs []
    else splitLinesAux cs (c :: acc)

/-- Python's `str.splitlines()`. -/
def splitLines (s : String) : List String :=
  splitLinesAux s.data []

/-- Auxiliary: does `needle` occur contiguously inside `hay`. -/
def containsSub (needle : List Char) : List Char → Bool
  | [] => needle.isEmpty
  | b :: bs => prefixMatches needle (b :: bs) || containsSub needle bs

/-- Python's `needle in hay` substring test. -/
def strContains (hay needle : String) : Bool :=
  containsSub needle.toList hay.toList

/-- The line-processing core of `_clean_html` (`scraper.py` lines 13-18): the
lines of the script/style/noscript-stripped text, each stripped of
surrounding whitespace, blank lines dropped, order preserved
(`[line.strip() for line in text.splitlines() if line.strip()]`). -/
def cleanLines (doc : Html) : List String :=
  let stripped := stripTags ["script", "style", "noscript"] doc
  let text := String.intercalate "\n" (htmlTexts stripped)
  ((splitLines text).map pyStrip).filter (fun line => !(line == ""))

/-- The function `_clean_html` of `scraper.py`, lines 13-18. -/
def clean_html (doc : Html) : String :=
  String.intercalate "\n" (cleanLines doc)

/-- The function `_extract_pdf_text` of `scraper.py`, lines 21-29.  The pypdf
collaborator is modelled as the list of per-page extraction results in page
order: `none` when `page.extract_text()` raised (the page is skipped by the
`except ... continue`), `some s` when it returned text (`or ""` already
folded in).  The result is `"\n".join([p.strip() for p in pages if
p.strip()])`. -/
def extract_pdf_text (pageResults : List (Option String)) : String :=
  let pages := pageResults.filterMap id
  String.intercalate "\n" ((pages.map pyStrip).filter (fun p => !(p == "")))

/-! ### Frontier crawler (`scrape_website`, `scraper.py` lines 32-117) -/

/-- One HTTP response at the fetch-collaborator boundary: the raw
`Content-Type` header value, `len(resp.content)`, the pypdf view of
`resp.content` (`none` when `PdfReader(BytesIO(content))` raises), and the
BeautifulSoup view of `resp.text`. -/
structure Response where
  contentType : String
  contentLen : Nat
  pdfDoc : Option (List (Option String))
  html : Html

/-- The crawler's external collaborators: `session.get` (`none` when the
request raises), `urllib.parse.urljoin`, and the `netloc` / `scheme` fields
of `urllib.parse.urlparse`. -/
structure CrawlEnv where
  fetch : String → Option Response
  urljoin : String → String → String
  netloc : String → String
  scheme : String → String

/-- The crawl budget arguments of `scrape_website`:
`max_pages`, `max_pdfs`, `pdf_max_mb * 1024 * 1024`, `same_domain`. -/
structure Budget where
  maxPages : Nat
  maxPdfs : Nat
  pdfMaxBytes : Nat
  sameDomain : Bool

/-- The crawler's mutable state: the frontier `queue`, the `visited` set,
`collected_texts`, `pdf_count`, `page_count`, plus a ghost trace `fetched`
of every URL passed to `session.get`. -/
structure CrawlState where
  queue : List String
  visited : List String
  fetched : List String
  collected : List String
  pdf_count : Nat
  page_count : Nat
deriving DecidableEq

/-- The body of the first link loop of `scrape_website` (lines 93-104):
strip the href, drop fragment-only / `mailto:` / `javascript:` targets,
resolve against the current URL, require an http(s) scheme, require the
seed host when `same_domain` is set, and enqueue if unseen and the
`(max_pages + max_pdfs) * 2` safety valve is not reached. -/
def processLinkEnqueue (env : CrawlEnv) (b : Budget) (base current : String)
    (st : CrawlState) (href0 : String) : CrawlState :=
  let href := pyStrip href0
  if pyStartsWith href "#" || pyStartsWith href "mailto:" || pyStartsWith href "javascript:" then st
  else
    let next := env.urljoin current href
    if !(env.scheme next == "http" || env.scheme next == "https") then st
    else if b.sameDomain && !(env.netloc next == base) then st
    else if next ∉ st.visited ∧ st.visited.length + st.queue.length < (b.maxPages + b.maxPdfs) * 2 then
      { st with queue := st.queue ++ [next] }
    else st

/-- The body of the second link loop of `scrape_website` (lines 107-112):
any stripped href ending in `.pdf` (lowercased) is resolved and enqueued if
unseen and the PDF budget is not yet met. -/
def processPdfLink (env : CrawlEnv) (b : Budget) (current : String)
    (st : CrawlState) (href0 : String) : CrawlState :=
  let href := pyStrip href0
  if pyEndsWith (pyLower href) ".pdf" then
    let next := env.urljoin current href
    if next ∉ st.visited ∧ st.pdf_count < b.maxPdfs then
      { st with queue := st.queue ++ [next] }
    else st
  else st

/-- The PDF branch of `scrape_website` (lines 70-82): skip if the PDF
budget is met or the response is larger than `pdf_max_bytes`; otherwise
extract text (a raising `PdfReader` is caught and skipped) and, if any text
came back, append it and count the PDF. -/
def pdfBranch (b : Budget) (st : CrawlState) (resp : Response) : CrawlState :=
  if st.pdf_count ≥ b.maxPdfs then st
  else if resp.contentLen > b.pdfMaxBytes then st
  else
    match resp.pdfDoc with
    | none => st
    | some pageResults =>
      let pdf_text := extract_pdf_text pageResults
      if pdf_text ≠ "" then
        { st with collected := st.collected ++ [pdf_text],
                  pdf_count := st.pdf_count + 1 }
      else st

/-- The HTML branch of `scrape_website` (lines 85-112): count the page,
append the cleaned text when non-empty, then run the two link loops. -/
def htmlBranch (env : CrawlEnv) (b : Budget) (base current : String)
    (st : CrawlState) (resp : Response) : CrawlState :=
  let st1 := { st with page_count := st.page_count + 1 }
  let cleaned := clean_html resp.html
  let st2 := if cleaned ≠ "" then { st1 with collected := st1.collected ++ [cleaned] } else st1
  let hrefs := findLinks resp.html
  let st3 := hrefs.foldl (processLinkEnqueue env b base current) st2
  hrefs.foldl (processPdfLink env b current) st3

/-- One iteration of the `while` loop of `scrape_website` (lines 56-112):
dequeue, skip if visited, mark visited, fetch (a raising `session.get` is
caught and skipped), then dispatch on
`"application/pdf" in ctype or current.lower().endswith(".pdf")` and
`"text/html" in ctype or ctype == ""`. -/
def crawlStep (env : CrawlEnv) (b : Budget) (base : String) (st : CrawlState) : CrawlState :=
  match st.queue with
  | [] => st
  | current :: rest =>
    if current ∈ st.visited then { st with queue := rest }
    else
      let st1 : CrawlState :=
        { st with queue := rest, visited := current :: st.visited,
                  fetched := st.fetched ++ [current] }
      match env.fetch current with
      | none => st1
      | some resp =>
        let ctype := pyLower resp.contentType
        if strContains ctype "application/pdf" || pyEndsWith (pyLower current) ".pdf" then
          pdfBranch b st1 resp
        else if strContains ctype "text/html" || ctype == "" then
          htmlBranch env b base current st1 resp
        else st1

/-- The `while queue and (page_count < max_pages or pdf_count < max_pdfs)`
loop, fuel-indexed. -/
def crawlRun (env : CrawlEnv) (b : Budget) (base : String) : Nat → CrawlState → CrawlState
  | 0, st => st
  | fuel + 1, st =>
    if st.queue ≠ [] ∧ (st.page_count < b.maxPages ∨ st.pdf_count < b.maxPdfs) then
      crawlRun env b base fuel (crawlStep env b base st)
    else st

/-- The initial crawl state of `scrape_website`: the frontier holds the
seed URL, everything else is empty. -/
def initCrawl (url : String) : CrawlState :=
  { queue := [url], visited := [], fetched := [], collected := [],
    pdf_count := 0, page_count := 0 }

/-- The final crawl state of `scrape_website(url, max_pages, max_pdfs,
same_domain, pdf_max_mb)`. -/
def crawlFinal (env : CrawlEnv) (fuel : Nat) (url : String) (b : Budget) : CrawlState :=
  crawlRun env b (env.netloc url) fuel (initCrawl url)

/-- The function `scrape_website` of `scraper.py`: run the crawl and return the
double-newline joined collected texts, or `""` when nothing was
collected. -/
def scrape_website (env : CrawlEnv) (fuel : Nat) (url : String)
    (max_pages max_pdfs : Nat) (same_domain : Bool) (pdf_max_mb : Nat) : String :=
  let b : Budget :=
    { maxPages := max_pages, maxPdfs := max_pdfs,
      pdfMaxBytes := pdf_max_mb * 1024 * 1024, sameDomain := same_domain }
  let final := crawlFinal env fuel url b
  if final.collected = [] then "" else String.intercalate "\n\n" final.collected

/-! ### Index builder (`vectorstore.py`) -/

/-- Observable outcome of one removal attempt of
`_force_cleanup_directory` (`vectorstore.py` lines 19-61), at the
filesystem-collaborator boundary: the `try` body ran and the directory was
verified gone (`removed`), it ran without exception but the directory still
exists (`persists`, which falls through to the next attempt after the
best-effort per-file removal pass, itself non-raising), or an exception
escaped the attempt (`raises`). -/
inductive AttemptOutcome where
  | removed
  | persists
  | raises
deriving DecidableEq

/-- The `for attempt in range(max_retries)` loop of
`_force_cleanup_directory`: `removed` returns `True`; `raises` on the last
attempt raises the `RuntimeError`, otherwise sleeps and retries; falling
off the loop returns `False`. -/
def cleanupGo (dbPath : String) (oracle : Nat → AttemptOutcome) (maxRetries : Nat) :
    Nat → Nat → Except String Bool
  | _, 0 => .ok false
  | attempt, remaining + 1 =>
    match oracle attempt with
    | .removed => .ok true
    | .persists => cleanupGo dbPath oracle maxRetries (attempt + 1) remaining
    | .raises =>
      if attempt = maxRetries - 1 then
        .error ("Failed to clean up directory " ++ dbPath ++ " after " ++
          toString maxRetries ++ " attempts. Please manually delete the directory.")
      else cleanupGo dbPath oracle maxRetries (attempt + 1) remaining

/-- The function `_force_cleanup_directory(db_path, max_retries)` of `vectorstore.py`
lines 10-63: immediately `True` when the directory does not exist,
otherwise the retry loop. -/
def force_cleanup_directory (dbPath : String) (exists0 : Bool)
    (oracle : Nat → AttemptOutcome) (maxRetries : Nat) : Except String Bool :=
  if exists0 then cleanupGo dbPath oracle maxRetries 0 maxRetries else .ok true

/-- The persisted state at the storage-collaborator boundary: the set of
existing per-tenant directories, and for each directory path the document
list of its `"university_data"` collection, when that collection exists. -/
structure VSState where
  dirs : List String
  colls : List (String × List String)
deriving DecidableEq

/-- How `save_to_vector_db` ends: returning the new collection
(`ok`), the `ValueError` on zero chunks (`emptyCorpus`), or the
`RuntimeError` re-raised from a failed batch `collection.add`
(`batchError`). -/
inductive SaveResult where
  | ok (chunkCount : Nat)
  | emptyCorpus
  | batchError
deriving DecidableEq

/-- The `for i in range(0, len(chunks), batch_size)` loop of
`save_to_vector_db` (lines 157-171), fuel-indexed (each iteration consumes
at least one chunk, so `chunks.length` fuel always suffices): add 100-chunk
batches in order; `addFails` tells which batch's `collection.add` raises.
Returns the documents stored so far and whether every batch succeeded. -/
def addBatchesGo (addFails : Nat → Bool) : Nat → Nat → List String → List String → List String × Bool
  | 0, _, chunks, stored => (stored ++ chunks, true)
  | fuel + 1, i, chunks, stored =>
    match chunks with
    | [] => (stored, true)
    | c :: cs =>
      if addFails i then (stored, false)
      else addBatchesGo addFails fuel (i + 1) ((c :: cs).drop 100) (stored ++ (c :: cs).take 100)

/-- The batch loop of `save_to_vector_db`, entered with batch index 0 and
nothing stored yet. -/
def addBatches (addFails : Nat → Bool) (chunks : List String) : List String × Bool :=
  addBatchesGo addFails chunks.length 0 chunks []

/-- Remove a tenant directory and its collection from the modelled store. -/
def removeDir (st : VSState) (p : String) : VSState :=
  { dirs := st.dirs.filter (fun d => !(d == p)),
    colls := st.colls.filter (fun e => !(e.1 == p)) }

/-- The call `Path(db_path).mkdir(parents=True, exist_ok=True)`. -/
def mkdirp (st : VSState) (p : String) : VSState :=
  { st with dirs := if p ∈ st.dirs then st.dirs else p :: st.dirs }

/-- The call to delete the tenant path's `"university_data"` collection, wrapped in
`try/except pass`. -/
def delete_collection (st : VSState) (p : String) : VSState :=
  { st with colls := st.colls.filter (fun e => !(e.1 == p)) }

/-- Result of `save_to_vector_db`: its outcome, the resulting store state,
and whether the cleanup-failure warning was printed. -/
structure SaveOutcome where
  result : SaveResult
  state : VSState
  warned : Bool
deriving DecidableEq

/-- The storage state and warning flag after the guarded cleanup call of
`save_to_vector_db` (lines 117-122): a verified removal deletes the
tenant's directory and collection; a cleanup that returned `False` leaves
the directory in place; a raising cleanup is caught, leaving the state and
printing the warning. -/
def afterCleanupState (st : VSState) (db_path : String) :
    Except String Bool → VSState × Bool
  | .ok true => (removeDir st db_path, false)
  | .ok false => (st, false)
  | .error _ => (st, true)

/-- The function `save_to_vector_db(university, text)` of `vectorstore.py` lines
109-173.  The text splitter (`RecursiveCharacterTextSplitter(1500, 200)
.split_text`) and the embedding provider are external collaborators; the
splitter is the `split` parameter and the embedding call always yields one
vector per chunk (vectors carry no information the store observes).  A
cleanup failure is caught, a warning is printed, and execution continues
(lines 117-122); `get_client` is modelled as succeeding on the freshly
ensured directory. -/
def save_to_vector_db (split : String → List String) (oracle : Nat → AttemptOutcome)
    (addFails : Nat → Bool) (st : VSState) (university text : String) : SaveOutcome :=
  let db_path := "data/" ++ university
  let cleanupResult := force_cleanup_directory db_path (decide (db_path ∈ st.dirs)) oracle 3
  let afterCleanup := afterCleanupState st db_path cleanupResult
  let st1 := mkdirp afterCleanup.1 db_path
  let st2 := delete_collection st1 db_path
  let chunks := split text
  if chunks = [] then
    { result := .emptyCorpus, state := st2, warned := afterCleanup.2 }
  else
    let added := addBatches addFails chunks
    let stFinal : VSState := { st2 with colls := (db_path, added.1) :: st2.colls }
    if added.2 then
      { result := .ok chunks.length, state := stFinal, warned := afterCleanup.2 }
    else
      { result := .batchError, state := stFinal, warned := afterCleanup.2 }

/-- The two `ValueError` conditions of `load_collection`
(`vectorstore.py` lines 176-196). -/
inductive LoadError where
  | dirNotFound (university : String)
  | collectionNotFound (university : String)
deriving DecidableEq

/-- The function `load_collection(university)` of `vectorstore.py` lines 176-196: raise
when the tenant directory does not exist; otherwise get the
`"university_data"` collection, raising when it is absent. -/
def load_collection (st : VSState) (university : String) : Except LoadError (List String) :=
  let db_path := "data/" ++ university
  if db_path ∈ st.dirs then
    match st.colls.lookup db_path with
    | some docs => .ok docs
    | none => .error (.collectionNotFound university)
  else .error (.dirNotFound university)

/-! ### Retrieval bridge (`rag_pipeline.py`) -/

/-- Ghost trace of collaborator invocations made by `ask_rag`:
`embedding.embed_query`, `collection.query`, `llm.invoke`. -/
inductive RagEvent where
  | embedQueryCall (q : String)
  | vectorQueryCall
  | llmInvokeCall
deriving DecidableEq

/-- The answer-generation collaborator's return value: an object with a
`.content` attribute, a plain string, or anything else (normalized through
`str(response)`). -/
inductive LlmResponse where
  | withContent (c : String)
  | plainString (s : String)
  | otherObject (s : String)
deriving DecidableEq

/-- The retrieval bridge's external collaborators. -/
structure RagEnv where
  embed_query : String → List Int
  queryTop : List String → List Int → Nat → List String
  llmInvoke : String → LlmResponse

/-- The response normalization at the end of `ask_rag` (lines 172-180). -/
def normalizeResponse : LlmResponse → String
  | .withContent c => c
  | .plainString s => s
  | .otherObject s => s

/-- The grounding prompt assembled by `ask_rag` (lines 128-151). -/
def ragPrompt (joined query : String) : String :=
  "You are a concise University AI Assistant.\n" ++
  "Use ONLY the context below. If the answer is not in the context, reply exactly: \"I don't have enough information to answer this question based on the provided context.\"\n\n" ++
  "CRITICAL RULES:\n" ++
  "- Do NOT invent, guess, or make up any URLs, links, or website addresses.\n" ++
  "- Only use URLs/links that are EXACTLY written in the context below.\n" ++
  "- If no URL is mentioned in the context, do NOT provide any URL in your answer.\n" ++
  "- Do NOT modify or correct URLs - use them exactly as they appear in context.\n\n" ++
  "Language:\n" ++
  "- Reply ONLY in the language of the user question. If mixed, use the last/dominant language.\n" ++
  "- Do NOT add any other language.\n" ++
  "- Keep names exactly as in context (no translation/transliteration).\n\n" ++
  "Output format:\n" ++
  "- Return ONLY the answer sentence; no preamble or bullet points.\n" ++
  "- If mentioning URLs, copy them EXACTLY from the context.\n\n" ++
  "Context:\n" ++ joined ++ "\n\n" ++
  "Question: " ++ query ++ "\n\n" ++
  "Answer:"

/-- The function `ask_rag(university, query)` of `rag_pipeline.py` lines 103-180,
together with the ghost trace of collaborator invocations in program
order: load the collection (its `ValueError`s propagate), embed the query,
retrieve the 5 nearest documents, assemble the grounding prompt, invoke
the LLM, normalize its response. -/
def ask_rag (env : RagEnv) (st : VSState) (university query : String) :
    Except LoadError String × List RagEvent :=
  match load_collection st university with
  | .error e => (.error e, [])
  | .ok docs =>
    let query_vec := env.embed_query query
    let results := env.queryTop docs query_vec 5
    let joined := String.intercalate "\n\n" results
    let prompt := ragPrompt joined query
    let response := env.llmInvoke prompt
    (.ok (normalizeResponse response),
     [.embedQueryCall query, .vectorQueryCall, .llmInvokeCall])

/-! ### Helper lemmas about the crawler -/

/-- All fields except the frontier queue: the link-enqueueing loops change
nothing else. -/
def nonQueueEq (s t : CrawlState) : Prop :=
  s.visited = t.visited ∧ s.fetched = t.fetched ∧ s.collected = t.collected ∧
  s.pdf_count = t.pdf_count ∧ s.page_count = t.page_count

theorem nonQueueEq_refl (s : CrawlState) : nonQueueEq s s :=
  ⟨rfl, rfl, rfl, rfl, rfl⟩

theorem nonQueueEq_trans {s t r : CrawlState} (h1 : nonQueueEq s t) (h2 : nonQueueEq t r) :
    nonQueueEq s r :=
  ⟨h1.1.trans h2.1, h1.2.1.trans h2.2.1, h1.2.2.1.trans h2.2.2.1,
   h1.2.2.2.1.trans h2.2.2.2.1, h1.2.2.2.2.trans h2.2.2.2.2⟩

theorem processLinkEnqueue_nonQueueEq (env : CrawlEnv) (b : Budget) (base current : String)
    (st : CrawlState) (href0 : String) :
    nonQueueEq (processLinkEnqueue env b base current st href0) st := by
  simp only [processLinkEnqueue, nonQueueEq]
  simp [apply_ite CrawlState.visited, apply_ite CrawlState.fetched,
    apply_ite CrawlState.collected, apply_ite CrawlState.pdf_count,
    apply_ite CrawlState.page_count]

theorem processPdfLink_nonQueueEq (env : CrawlEnv) (b : Budget) (current : String)
    (st : CrawlState) (href0 : String) :
    nonQueueEq (processPdfLink env b current st href0) st := by
  simp only [processPdfLink, nonQueueEq]
  simp [apply_ite CrawlState.visited, apply_ite CrawlState.fetched,
    apply_ite CrawlState.collected, apply_ite CrawlState.pdf_count,
    apply_ite CrawlState.page_count]

theorem foldl_nonQueueEq {g : CrawlState → String → CrawlState}
    (hg : ∀ st x, nonQueueEq (g st x) st) :
    ∀ (l : List String) (st : CrawlState), nonQueueEq (l.foldl g st) st := by
  intro l
  induction l with
  | nil => intro st; exact nonQueueEq_refl st
  | cons x xs ih =>
    intro st
    exact nonQueueEq_trans (ih (g st x)) (hg st x)

theorem htmlBranch_fields (env : CrawlEnv) (b : Budget) (base current : String)
    (st : CrawlState) (resp : Response) :
    (htmlBranch env b base current st resp).pdf_count = st.pdf_count ∧
    (htmlBranch env b base current st resp).page_count = st.page_count + 1 ∧
    (htmlBranch env b base current st resp).visited = st.visited ∧
    (htmlBranch env b base current st resp).fetched = st.fetched := by
  have key : nonQueueEq (htmlBranch env b base current st resp)
      (if clean_html resp.html ≠ "" then
        { st with page_count := st.page_count + 1,
                  collected := st.collected ++ [clean_html resp.html] }
      else { st with page_count := st.page_count + 1 }) := by
    unfold htmlBranch
    simp only []
    exact nonQueueEq_trans
      (foldl_nonQueueEq (processPdfLink_nonQueueEq env b current) (findLinks resp.html) _)
      (foldl_nonQueueEq (processLinkEnqueue_nonQueueEq env b base current) (findLinks resp.html) _)
  refine ⟨?_, ?_, ?_, ?_⟩
  · rw [key.2.2.2.1]
    simp [apply_ite CrawlState.pdf_count]
  · rw [key.2.2.2.2]
    simp [apply_ite CrawlState.page_count]
  · rw [key.1]
    simp [apply_ite CrawlState.visited]
  · rw [key.2.1]
    simp [apply_ite CrawlState.fetched]

theorem pdfBranch_fields (b : Budget) (st : CrawlState) (resp : Response) :
    (pdfBranch b st resp).queue = st.queue ∧
    (pdfBranch b st resp).visited = st.visited ∧
    (pdfBranch b st resp).fetched = st.fetched ∧
    (pdfBranch b st resp).page_count = st.page_count := by
  unfold pdfBranch
  repeat' split
  all_goals
    simp [apply_ite CrawlState.queue, apply_ite CrawlState.visited,
      apply_ite CrawlState.fetched, apply_ite CrawlState.page_count]

theorem pdfBranch_pdf_le (b : Budget) (st : CrawlState) (resp : Response)
    (h : st.pdf_count ≤ b.maxPdfs) : (pdfBranch b st resp).pdf_count ≤ b.maxPdfs := by
  unfold pdfBranch
  repeat' split
  all_goals
    first
    | exact h
    | (simp only [apply_ite CrawlState.pdf_count]
       split <;> omega)

theorem crawlStep_pdf_le (env : CrawlEnv) (b : Budget) (base : String) (st : CrawlState)
    (h : st.pdf_count ≤ b.maxPdfs) : (crawlStep env b base st).pdf_count ≤ b.maxPdfs := by
  unfold crawlStep
  split
  · exact h
  · split
    · exact h
    · simp only []
      split
      · exact h
      · split
        · exact pdfBranch_pdf_le _ _ _ h
        · split
          · rw [(htmlBranch_fields _ _ _ _ _ _).1]
            exact h
          · exact h

theorem crawlStep_page_succ (env : CrawlEnv) (b : Budget) (base : String) (st : CrawlState) :
    (crawlStep env b base st).page_count ≤ st.page_count + 1 := by
  unfold crawlStep
  split
  · exact Nat.le_succ _
  · split
    · exact Nat.le_succ _
    · simp only []
      split
      · exact Nat.le_succ _
      · split
        · rw [(pdfBranch_fields _ _ _).2.2.2]
          exact Nat.le_succ _
        · split
          · rw [(htmlBranch_fields _ _ _ _ _ _).2.1]
          · exact Nat.le_succ _

theorem crawlRun_pdf_le (env : CrawlEnv) (b : Budget) (base : String) :
    ∀ (fuel : Nat) (st : CrawlState), st.pdf_count ≤ b.maxPdfs →
      (crawlRun env b base fuel st).pdf_count ≤ b.maxPdfs
  | 0, st, h => h
  | fuel + 1, st, h => by
    unfold crawlRun
    split
    · exact crawlRun_pdf_le env b base fuel _ (crawlStep_pdf_le env b base st h)
    · exact h

theorem crawlRun_page_le (env : CrawlEnv) (b : Budget) (base : String) (h0 : b.maxPdfs = 0) :
    ∀ (fuel : Nat) (st : CrawlState), st.page_count ≤ b.maxPages →
      (crawlRun env b base fuel st).page_count ≤ b.maxPages
  | 0, st, h => h
  | fuel + 1, st, h => by
    unfold crawlRun
    split
    · next hcond =>
      have hlt : st.page_count < b.maxPages := by
        rcases hcond.2 with h1 | h1
        · exact h1
        · omega
      exact crawlRun_page_le env b base h0 fuel _
        (le_trans (crawlStep_page_succ env b base st) hlt)
    · exact h

/-! ### Claim C1 -/

/-- Claim C1 (amended): over every environment, budget and fuel, the PDF
counter of a crawl never exceeds `maxPdfs`; the page counter never exceeds
`maxPages` when `maxPdfs = 0` (i.e. once no PDF budget keeps the loop
alive), but in general HTML pages keep being counted past `maxPages` while
the PDF budget is unexhausted. -/
theorem c1_budget_ceilings (env : CrawlEnv) (fuel : Nat) (url : String) (b : Budget) :
    (crawlFinal env fuel url b).pdf_count ≤ b.maxPdfs ∧
    (b.maxPdfs = 0 → (crawlFinal env fuel url b).page_count ≤ b.maxPages) := by
  constructor
  · exact crawlRun_pdf_le env b _ fuel _ (Nat.zero_le _)
  · intro h0
    exact crawlRun_page_le env b _ h0 fuel _ (Nat.zero_le _)

/-- An HTML response whose page shows `txt` and links to `links`. -/
def htmlRespCE (txt : String) (links : List String) : Response :=
  { contentType := "text/html", contentLen := 10, pdfDoc := none,
    html := .elem "[document]" [] (hl ([.elem "p" [] (hl [.text txt])] ++
      links.map (fun l => .elem "a" [("href", l)] (hl [.text "link"])))) }

/-- A two-page same-host site: the seed links to one further HTML page.
`urljoin` is the identity on these absolute hrefs and both URLs share the
host `h`, exactly as `urllib.parse` would report for them. -/
def cenvC1 : CrawlEnv :=
  { fetch := fun u =>
      if u = "http://h/a" then some (htmlRespCE "A" ["http://h/b"])
      else if u = "http://h/b" then some (htmlRespCE "B" [])
      else none,
    urljoin := fun _ href => href,
    netloc := fun _ => "h",
    scheme := fun _ => "http" }

/-- A budget of one page and one PDF. -/
def cbC1 : Budget := { maxPages := 1, maxPdfs := 1, pdfMaxBytes := 100, sameDomain := true }

/-- Claim C1 counterexample: with `max_pages = 1` and `max_pdfs = 1`, the
crawl of a two-page HTML site counts 2 pages — the loop keeps running on
the open PDF budget and the HTML branch increments `page_count` without
any ceiling check, so the page count exceeds `maxPages`. -/
theorem c1_counterexample :
    ¬ ((crawlFinal cenvC1 5 "http://h/a" cbC1).page_count ≤ cbC1.maxPages) := by decide

/-- The same crawl with `maxPdfs = 0`. -/
def cbC1z : Budget := { maxPages := 1, maxPdfs := 0, pdfMaxBytes := 100, sameDomain := true }

/-- Witness for `c1_budget_ceilings` at a concrete crawl, discharging the
`maxPdfs = 0` hypothesis of its second conjunct on `cbC1z`. -/
theorem c1_budget_ceilings_witness :
    (crawlFinal cenvC1 5 "http://h/a" cbC1).pdf_count ≤ cbC1.maxPdfs ∧
    (cbC1z.maxPdfs = 0 ∧ (crawlFinal cenvC1 5 "http://h/a" cbC1z).page_count ≤ cbC1z.maxPages) :=
  ⟨(c1_budget_ceilings cenvC1 5 "http://h/a" cbC1).1,
   rfl, (c1_budget_ceilings cenvC1 5 "http://h/a" cbC1z).2 rfl⟩

/-! ### Claim C2 -/

/-- The invariant behind claim C2: a URL is on the seed's host or carries a
`.pdf` suffix. -/
def c2P (env : CrawlEnv) (base u : String) : Prop :=
  env.netloc u = base ∨ pyEndsWith (pyLower u) ".pdf" = true

theorem foldl_queue_inv (Q : String → Prop) (g : CrawlState → String → CrawlState)
    (hg : ∀ st x u, u ∈ (g st x).queue → u ∈ st.queue ∨ Q u) :
    ∀ (l : List String) (st : CrawlState) (u : String),
      u ∈ (l.foldl g st).queue → u ∈ st.queue ∨ Q u := by
  intro l
  induction l with
  | nil => exact fun st u hu => Or.inl hu
  | cons x xs ih =>
    intro st u hu
    rcases ih (g st x) u hu with h | h
    · exact hg st x u h
    · exact Or.inr h

theorem processLinkEnqueue_queue_mem (env : CrawlEnv) (b : Budget) (base current : String)
    (hSD : b.sameDomain = true) (st : CrawlState) (href0 : String) (u : String)
    (hu : u ∈ (processLinkEnqueue env b base current st href0).queue) :
    u ∈ st.queue ∨ env.netloc u = base := by
  simp only [processLinkEnqueue] at hu
  split at hu
  · exact Or.inl hu
  · split at hu
    · exact Or.inl hu
    · split at hu
      · exact Or.inl hu
      · split at hu
        · rename_i h1 h2 h3 h4
          rcases List.mem_append.1 hu with h | h
          · exact Or.inl h
          · have hd : env.netloc (env.urljoin current (pyStrip href0)) = base := by
              rw [hSD] at h3
              simpa using h3
            rw [List.mem_singleton.1 h]
            exact Or.inr hd
        · exact Or.inl hu

theorem processPdfLink_queue_mem (env : CrawlEnv) (b : Budget) (current : String)
    (hj : ∀ c h, pyEndsWith (pyLower h) ".pdf" = true →
      pyEndsWith (pyLower (env.urljoin c h)) ".pdf" = true)
    (st : CrawlState) (href0 : String) (u : String)
    (hu : u ∈ (processPdfLink env b current st href0).queue) :
    u ∈ st.queue ∨ pyEndsWith (pyLower u) ".pdf" = true := by
  simp only [processPdfLink] at hu
  split at hu
  · rename_i hpdf
    split at hu
    · rcases List.mem_append.1 hu with h | h
      · exact Or.inl h
      · rw [List.mem_singleton.1 h]
        exact Or.inr (hj current (pyStrip href0) hpdf)
    · exact Or.inl hu
  · exact Or.inl hu

theorem crawlStep_c2 (env : CrawlEnv) (b : Budget) (base : String)
    (hSD : b.sameDomain = true)
    (hj : ∀ c h, pyEndsWith (pyLower h) ".pdf" = true →
      pyEndsWith (pyLower (env.urljoin c h)) ".pdf" = true)
    (st : CrawlState)
    (hq : ∀ u ∈ st.queue, c2P env base u) (hf : ∀ u ∈ st.fetched, c2P env base u) :
    (∀ u ∈ (crawlStep env b base st).queue, c2P env base u) ∧
    (∀ u ∈ (crawlStep env b base st).fetched, c2P env base u) := by
  unfold crawlStep
  split
  · exact ⟨hq, hf⟩
  · rename_i current rest heq
    have hqcur : c2P env base current := hq current (by rw [heq]; exact List.mem_cons_self _ _)
    have hqrest : ∀ u ∈ rest, c2P env base u := fun u hu =>
      hq u (by rw [heq]; exact List.mem_cons_of_mem _ hu)
    have hf1 : ∀ u ∈ st.fetched ++ [current], c2P env base u := by
      intro u hu
      rcases List.mem_append.1 hu with h | h
      · exact hf u h
      · rw [List.mem_singleton.1 h]
        exact hqcur
    split
    · exact ⟨hqrest, hf⟩
    · simp only []
      split
      · exact ⟨hqrest, hf1⟩
      · rename_i resp heq2
        split
        · constructor
          · rw [(pdfBranch_fields _ _ _).1]
            exact hqrest
          · rw [(pdfBranch_fields _ _ _).2.2.1]
            exact hf1
        · split
          · constructor
            · intro u hu
              unfold htmlBranch at hu
              simp only [] at hu
              rcases foldl_queue_inv (fun v => pyEndsWith (pyLower v) ".pdf" = true) _
                  (fun s x v hv => processPdfLink_queue_mem env b current hj s x v hv)
                  _ _ u hu with h | h
              · rcases foldl_queue_inv (fun v => env.netloc v = base) _
                    (fun s x v hv => processLinkEnqueue_queue_mem env b base current hSD s x v hv)
                    _ _ u h with h2 | h2
                · have hq2 : u ∈ rest := by
                    simpa [apply_ite CrawlState.queue] using h2
                  exact hqrest u hq2
                · exact Or.inl h2
              · exact Or.inr h
            · rw [(htmlBranch_fields _ _ _ _ _ _).2.2.2]
              exact hf1
          · exact ⟨hqrest, hf1⟩

theorem crawlRun_c2 (env : CrawlEnv) (b : Budget) (base : String)
    (hSD : b.sameDomain = true)
    (hj : ∀ c h, pyEndsWith (pyLower h) ".pdf" = true →
      pyEndsWith (pyLower (env.urljoin c h)) ".pdf" = true) :
    ∀ (fuel : Nat) (st : CrawlState),
      (∀ u ∈ st.queue, c2P env base u) → (∀ u ∈ st.fetched, c2P env base u) →
      (∀ u ∈ (crawlRun env b base fuel st).queue, c2P env base u) ∧
      (∀ u ∈ (crawlRun env b base fuel st).fetched, c2P env base u)
  | 0, st, hq, hf => ⟨hq, hf⟩
  | fuel + 1, st, hq, hf => by
    unfold crawlRun
    split
    · have hstep := crawlStep_c2 env b base hSD hj st hq hf
      exact crawlRun_c2 env b base hSD hj fuel _ hstep.1 hstep.2
    · exact ⟨hq, hf⟩

/-- Claim C2 (amended): for every crawl with `sameDomainOnly = true` (under
the `urljoin` property that resolving an href that ends in `.pdf` yields a
URL that ends in `.pdf`), every URL passed to the HTTP GET collaborator
either has the seed URL's host or ends in `.pdf` — links ending in `.pdf`
are enqueued by the second link loop without the same-host (or scheme)
check, so the same-host restriction holds for all fetched URLs except
`.pdf`-suffixed ones. -/
theorem c2_fetched_host_or_pdf (env : CrawlEnv) (b : Budget) (fuel : Nat) (url : String)
    (hSD : b.sameDomain = true)
    (hj : ∀ c h, pyEndsWith (pyLower h) ".pdf" = true →
      pyEndsWith (pyLower (env.urljoin c h)) ".pdf" = true)
    (u : String) (hu : u ∈ (crawlFinal env fuel url b).fetched) :
    env.netloc u = env.netloc url ∨ pyEndsWith (pyLower u) ".pdf" = true := by
  have hq0 : ∀ v ∈ (initCrawl url).queue, c2P env (env.netloc url) v := by
    intro v hv
    rw [List.mem_singleton.1 hv]
    exact Or.inl rfl
  have hf0 : ∀ v ∈ (initCrawl url).fetched, c2P env (env.netloc url) v := by
    intro v hv
    exact absurd hv (List.not_mem_nil v)
  exact (crawlRun_c2 env b (env.netloc url) hSD hj fuel (initCrawl url) hq0 hf0).2 u hu

/-- A PDF response with one extractable page. -/
def pdfRespCE : Response :=
  { contentType := "application/pdf", contentLen := 10,
    pdfDoc := some [some "PDF TEXT"], html := .text "" }

/-- A same-domain crawl whose seed page links to an off-site PDF: the seed
is on host `a.com` and links to `http://evil.com/x.pdf`.  `urljoin` is the
identity on these absolute hrefs, and `netloc` reports the two hosts
exactly as `urllib.parse` would. -/
def cenvC2 : CrawlEnv :=
  { fetch := fun u =>
      if u = "http://a.com/" then some (htmlRespCE "A" ["http://evil.com/x.pdf"])
      else if u = "http://evil.com/x.pdf" then some pdfRespCE
      else none,
    urljoin := fun _ href => href,
    netloc := fun u => if u = "http://evil.com/x.pdf" then "evil.com" else "a.com",
    scheme := fun _ => "http" }

/-- A roomy budget with the same-domain restriction on. -/
def cbC2 : Budget := { maxPages := 10, maxPdfs := 10, pdfMaxBytes := 100, sameDomain := true }

/-- Claim C2 counterexample: with `sameDomainOnly = true`, the crawler
fetches `http://evil.com/x.pdf`, whose host differs from the seed host —
the second link loop enqueues `.pdf` links without the same-host check. -/
theorem c2_counterexample :
    cbC2.sameDomain = true ∧
    "http://evil.com/x.pdf" ∈ (crawlFinal cenvC2 5 "http://a.com/" cbC2).fetched ∧
    cenvC2.netloc "http://evil.com/x.pdf" ≠ cenvC2.netloc "http://a.com/" := by decide

/-- A same-domain crawl whose seed page links to the relative PDF `x.pdf`;
`netloc` is modelled as the identity so the two URLs differ in host. -/
def cenvC2w : CrawlEnv :=
  { fetch := fun u =>
      if u = "http://a.com/" then some (htmlRespCE "A" ["x.pdf"])
      else if u = "x.pdf" then some pdfRespCE
      else none,
    urljoin := fun _ href => href,
    netloc := fun u => u,
    scheme := fun _ => "http" }

/-- Witness for `c2_fetched_host_or_pdf` at a concrete crawl: all its
hypotheses are discharged for `cenvC2w`, whose `urljoin` is the identity,
on the fetched URL `x.pdf`. -/
theorem c2_fetched_host_or_pdf_witness :
    cenvC2w.netloc "x.pdf" = cenvC2w.netloc "http://a.com/" ∨
    pyEndsWith (pyLower "x.pdf") ".pdf" = true :=
  c2_fetched_host_or_pdf cenvC2w cbC2 5 "http://a.com/" rfl
    (fun _ _ hh => hh) "x.pdf" (by decide)

/-! ### Claim C6 -/

/-- Claim C6 (amended): the dispatch is not MIME-first — the PDF branch is
taken whenever the declared MIME type contains `application/pdf` OR the
URL's lowercased form ends in `.pdf`.  A URL ending in `.pdf` is therefore
handled by the PDF branch regardless of its declared MIME type (no page
count, no link discovery); only when neither holds does a declared
`text/html` select the HTML branch. -/
theorem c6_dispatch (env : CrawlEnv) (b : Budget) (base : String) (st : CrawlState)
    (current : String) (rest : List String) (resp : Response)
    (hq : st.queue = current :: rest) (hv : current ∉ st.visited)
    (hf : env.fetch current = some resp) :
    (pyEndsWith (pyLower current) ".pdf" = true →
      (crawlStep env b base st).page_count = st.page_count ∧
      (crawlStep env b base st).queue = rest) ∧
    (strContains (pyLower resp.contentType) "application/pdf" = false →
      pyEndsWith (pyLower current) ".pdf" = false →
      strContains (pyLower resp.contentType) "text/html" = true →
      (crawlStep env b base st).page_count = st.page_count + 1) := by
  unfold crawlStep
  rw [hq]
  simp only [if_neg hv, hf]
  constructor
  · intro hpdf
    rw [hpdf]
    simp only [Bool.or_true, if_true]
    exact ⟨(pdfBranch_fields _ _ _).2.2.2, (pdfBranch_fields _ _ _).1⟩
  · intro h1 h2 h3
    rw [h1, h2, h3]
    simp only [Bool.or_self, Bool.true_or, Bool.false_eq_true, if_false, if_true]
    exact (htmlBranch_fields _ _ _ _ _ _).2.1

/-- A crawl environment in which the single URL `http://h/doc.pdf` answers
with declared MIME type `text/html`, an HTML body showing `H`, and a
byte stream that pypdf reads as one page of text `P`. -/
def cenvC6 : CrawlEnv :=
  { fetch := fun _ => some
      { contentType := "text/html", contentLen := 10,
        pdfDoc := some [some "P"],
        html := .elem "[document]" [] (hl [.elem "p" [] (hl [.text "H"])]) },
    urljoin := fun _ href => href,
    netloc := fun _ => "h",
    scheme := fun _ => "http" }

/-- Claim C6 counterexample: fetching `http://h/doc.pdf`, whose response
declares the unambiguous MIME type `text/html`, is handled by the PDF
branch — the PDF counter rises, the extracted PDF text is collected, and
the page counter stays 0 — because the URL-suffix test is a disjunct of
the dispatch, not a fallback for an absent or ambiguous MIME type. -/
theorem c6_counterexample :
    (crawlFinal cenvC6 5 "http://h/doc.pdf" cbC2).page_count = 0 ∧
    (crawlFinal cenvC6 5 "http://h/doc.pdf" cbC2).pdf_count = 1 ∧
    (crawlFinal cenvC6 5 "http://h/doc.pdf" cbC2).collected = ["P"] := by decide

/-- Witness for `c6_dispatch` at a concrete state: both implications are
exercised, on a `.pdf` URL and on an `.html` URL with a `text/html`
response. -/
theorem c6_dispatch_witness :
    ((crawlStep cenvC6 cbC2 "h" (initCrawl "http://h/doc.pdf")).page_count = 0 ∧
      (crawlStep cenvC6 cbC2 "h" (initCrawl "http://h/doc.pdf")).queue = []) ∧
    (crawlStep cenvC6 cbC2 "h" (initCrawl "http://h/x.html")).page_count = 1 :=
  ⟨(c6_dispatch cenvC6 cbC2 "h" (initCrawl "http://h/doc.pdf") "http://h/doc.pdf" [] _
      rfl (by decide) rfl).1 (by decide),
   (c6_dispatch cenvC6 cbC2 "h" (initCrawl "http://h/x.html") "http://h/x.html" [] _
      rfl (by decide) rfl).2 (by decide) (by decide) (by decide)⟩

/-! ### Claim C9 -/

/-- Claim C9: a response dispatched to the PDF branch whose byte length
exceeds `pdf_max_bytes` is skipped entirely: the crawl step marks the URL
visited and records the fetch, but the collected texts, the PDF counter
and the page counter are all unchanged and nothing further happens. -/
theorem c9_oversized_pdf_skipped (env : CrawlEnv) (b : Budget) (base : String)
    (st : CrawlState) (current : String) (rest : List String) (resp : Response)
    (hq : st.queue = current :: rest) (hv : current ∉ st.visited)
    (hf : env.fetch current = some resp)
    (hd : (strContains (pyLower resp.contentType) "application/pdf" ||
      pyEndsWith (pyLower current) ".pdf") = true)
    (hlen : resp.contentLen > b.pdfMaxBytes) :
    crawlStep env b base st =
      { st with queue := rest, visited := current :: st.visited,
                fetched := st.fetched ++ [current] } := by
  unfold crawlStep
  rw [hq]
  simp only [if_neg hv, hf, hd, if_true]
  unfold pdfBranch
  rw [if_pos hlen, ite_self]

/-- The crawl environment of the C8/C9 witnesses: `http://a.com/big.pdf`
is a 1000-byte PDF, `http://a.com/bad.pdf` is a small byte stream the PDF
reader fails to parse. -/
def cenvC9 : CrawlEnv :=
  { fetch := fun u =>
      if u = "http://a.com/big.pdf" then
        some { contentType := "application/pdf", contentLen := 1000,
               pdfDoc := some [some "BIG"], html := .text "" }
      else if u = "http://a.com/bad.pdf" then
        some { contentType := "application/pdf", contentLen := 10,
               pdfDoc := none, html := .text "" }
      else none,
    urljoin := fun _ href => href,
    netloc := fun _ => "a.com",
    scheme := fun _ => "http" }

/-- Witness for `c9_oversized_pdf_skipped`: a 1000-byte PDF response
against a 100-byte ceiling is skipped without touching the counters or the
collected texts. -/
theorem c9_oversized_pdf_skipped_witness :
    crawlStep cenvC9 cbC2 "a.com" (initCrawl "http://a.com/big.pdf") =
      { queue := [], visited := ["http://a.com/big.pdf"],
        fetched := ["http://a.com/big.pdf"], collected := [],
        pdf_count := 0, page_count := 0 } :=
  c9_oversized_pdf_skipped cenvC9 cbC2 "a.com" (initCrawl "http://a.com/big.pdf")
    "http://a.com/big.pdf" [] _ rfl (by decide) rfl (by decide) (by decide)

/-! ### Claim C8 -/

/-- Claim C8: per-page PDF extraction error handling — a page whose
extraction raises is skipped without failing the document, pages
contributing only whitespace are dropped, an empty page list yields the
empty string, and a byte stream the PDF reader cannot parse at all makes
the crawler skip the URL (visited and fetch recorded, nothing else
changed) rather than propagate the failure. -/
theorem c8_pdf_error_handling :
    (∀ xs ys : List (Option String),
      extract_pdf_text (xs ++ none :: ys) = extract_pdf_text (xs ++ ys)) ∧
    (∀ (xs ys : List (Option String)) (w : String), pyStrip w = "" →
      extract_pdf_text (xs ++ some w :: ys) = extract_pdf_text (xs ++ ys)) ∧
    extract_pdf_text [] = "" ∧
    (∀ (env : CrawlEnv) (b : Budget) (base : String) (st : CrawlState)
      (current : String) (rest : List String) (resp : Response),
      st.queue = current :: rest → current ∉ st.visited →
      env.fetch current = some resp →
      (strContains (pyLower resp.contentType) "application/pdf" ||
        pyEndsWith (pyLower current) ".pdf") = true →
      resp.pdfDoc = none →
      crawlStep env b base st =
        { st with queue := rest, visited := current :: st.visited,
                  fetched := st.fetched ++ [current] }) := by
  refine ⟨?_, ?_, rfl, ?_⟩
  · intro xs ys
    unfold extract_pdf_text
    simp [List.filterMap_append]
  · intro xs ys w hw
    unfold extract_pdf_text
    simp [List.filterMap_append, List.filter_append, hw]
  · intro env b base st current rest resp hq hv hf hd hpd
    unfold crawlStep
    rw [hq]
    simp only [if_neg hv, hf, hd, if_true]
    unfold pdfBranch
    split
    · rfl
    · split
      · rfl
      · rw [hpd]

/-- Witness for `c8_pdf_error_handling`: a raising page between two good
pages is dropped, a whitespace-only page is dropped, and an unparseable
document makes the crawler skip the URL. -/
theorem c8_pdf_error_handling_witness :
    extract_pdf_text [some "a", none, some "b"] = extract_pdf_text [some "a", some "b"] ∧
    (pyStrip "  " = "" ∧
      extract_pdf_text [some "a", some "  ", some "b"] = extract_pdf_text [some "a", some "b"]) ∧
    crawlStep cenvC9 cbC2 "a.com" (initCrawl "http://a.com/bad.pdf") =
      { queue := [], visited := ["http://a.com/bad.pdf"],
        fetched := ["http://a.com/bad.pdf"], collected := [],
        pdf_count := 0, page_count := 0 } :=
  ⟨c8_pdf_error_handling.1 [some "a"] [some "b"],
   ⟨by decide, c8_pdf_error_handling.2.1 [some "a"] [some "b"] "  " (by decide)⟩,
   c8_pdf_error_handling.2.2.2 cenvC9 cbC2 "a.com" (initCrawl "http://a.com/bad.pdf")
     "http://a.com/bad.pdf" [] _ rfl (by decide) rfl (by decide) rfl⟩

/-! ### Claim C7 -/

/-- The parse tree of the HTML body `<script>x</script><p>Hello</p>` as
`html.parser` delivers it. -/
def c7doc : Html :=
  .elem "[document]" []
    (hl [.elem "script" [] (hl [.text "x"]), .elem "p" [] (hl [.text "Hello"])])

/-- Claim C7: the HTML extractor strips script/style/noscript content
before text extraction, then keeps exactly the non-blank stripped lines of
the extracted text in their original order: the scenario body
`<script>x</script><p>Hello</p>` extracts to exactly `"Hello"`, the kept
lines are a sublist (order-preserving selection) of the stripped lines of
the extracted text, and no kept line is blank. -/
theorem c7_html_extraction :
    clean_html c7doc = "Hello" ∧
    (∀ doc : Html, (cleanLines doc).Sublist
      ((splitLines (String.intercalate "\n"
        (htmlTexts (stripTags ["script", "style", "noscript"] doc)))).map pyStrip)) ∧
    (∀ doc : Html, (cleanLines doc).all (fun l => !(l == "")) = true) := by
  refine ⟨by decide, ?_, ?_⟩
  · intro doc
    unfold cleanLines
    simp only []
    exact List.filter_sublist _
  · intro doc
    unfold cleanLines
    simp only [List.all_eq_true]
    intro l hl2
    exact (List.mem_filter.1 hl2).2

/-! ### Helper lemmas about the index builder's store model -/

theorem lookup_filter_self (p : String) :
    ∀ l : List (String × List String), (l.filter (fun e => !(e.1 == p))).lookup p = none := by
  intro l
  induction l with
  | nil => rfl
  | cons a t ih =>
    obtain ⟨k, v⟩ := a
    rw [List.filter_cons]
    by_cases h : k = p
    · simp only [h, beq_self_eq_true, Bool.not_true, Bool.false_eq_true, if_false]
      exact ih
    · simp only [beq_false_of_ne h, Bool.not_false, if_true]
      simpa [List.lookup, beq_false_of_ne (Ne.symm h)] using ih

theorem lookup_filter_ne (p k : String) (h : k ≠ p) :
    ∀ l : List (String × List String),
      (l.filter (fun e => !(e.1 == p))).lookup k = l.lookup k := by
  intro l
  induction l with
  | nil => rfl
  | cons a t ih =>
    obtain ⟨a1, a2⟩ := a
    rw [List.filter_cons]
    by_cases h1 : a1 = p
    · have hk : (k == p) = false := beq_false_of_ne h
      simp only [h1, beq_self_eq_true, Bool.not_true, Bool.false_eq_true, if_false]
      simp [List.lookup, hk, ih]
    · simp only [beq_false_of_ne h1, Bool.not_false, if_true]
      simp [List.lookup, ih]

theorem mem_filter_ne (p k : String) (h : k ≠ p) (l : List String) :
    (k ∈ l.filter (fun d => !(d == p))) ↔ k ∈ l := by
  simp [List.mem_filter, beq_false_of_ne h]

theorem mem_mkdirp_ne {st : VSState} {p k : String} (h : k ≠ p) :
    (k ∈ (mkdirp st p).dirs) ↔ k ∈ st.dirs := by
  unfold mkdirp
  split
  · exact Iff.rfl
  · simp [h]

theorem tenant_path_inj {u v : String} (h : ("data/" ++ u : String) = "data/" ++ v) :
    u = v := by
  cases u with
  | mk du =>
    cases v with
    | mk dv =>
      have hd : "data/".data ++ du = "data/".data ++ dv := congrArg String.data h
      exact congrArg String.mk (List.append_cancel_left hd)

theorem afterCleanupState_preserves (r : Except String Bool) (st : VSState) (db k : String)
    (hk : k ≠ db) :
    ((afterCleanupState st db r).1.colls.lookup k = st.colls.lookup k) ∧
    ((k ∈ (afterCleanupState st db r).1.dirs) ↔ k ∈ st.dirs) := by
  cases r with
  | error e => exact ⟨rfl, Iff.rfl⟩
  | ok bv =>
    cases bv
    · exact ⟨rfl, Iff.rfl⟩
    · exact ⟨lookup_filter_ne db k hk st.colls, mem_filter_ne db k hk st.dirs⟩

theorem addBatchesGo_ok (addFails : Nat → Bool) (h : ∀ i, addFails i = false) :
    ∀ (fuel i : Nat) (chunks stored : List String),
      addBatchesGo addFails fuel i chunks stored = (stored ++ chunks, true)
  | 0, _, _, _ => rfl
  | fuel + 1, i, [], stored => by simp [addBatchesGo]
  | fuel + 1, i, c :: cs, stored => by
    unfold addBatchesGo
    rw [h i]
    simp only [Bool.false_eq_true, if_false]
    rw [addBatchesGo_ok addFails h fuel (i + 1) ((c :: cs).drop 100) (stored ++ (c :: cs).take 100)]
    rw [List.append_assoc, List.take_append_drop]

/-- Shared result for a rebuild on a corpus that splits into zero chunks:
the `ValueError` is raised and the tenant's collection is gone. -/
theorem save_to_vector_db_empty (split : String → List String) (oracle : Nat → AttemptOutcome)
    (addFails : Nat → Bool) (st : VSState) (u text : String) (hchunks : split text = []) :
    (save_to_vector_db split oracle addFails st u text).result = .emptyCorpus ∧
    (save_to_vector_db split oracle addFails st u text).state.colls.lookup ("data/" ++ u) = none := by
  unfold save_to_vector_db
  simp only []
  rw [hchunks, if_pos rfl]
  exact ⟨rfl, lookup_filter_self _ _⟩

/-! ### Claim C3 -/

/-- Claim C3 (amended): when `_force_cleanup_directory` raises after
exhausting its retries, `save_to_vector_db` does not fail with a storage
error — the exception is caught, the warning is recorded, and the rebuild
proceeds: with a non-empty chunking and succeeding batch writes it
completes normally and writes the chunks into the tenant's collection. -/
theorem c3_cleanup_failure_continues (split : String → List String)
    (oracle : Nat → AttemptOutcome) (addFails : Nat → Bool) (st : VSState)
    (u text msg : String)
    (hcl : force_cleanup_directory ("data/" ++ u) (decide (("data/" ++ u) ∈ st.dirs)) oracle 3 =
      .error msg)
    (hfails : ∀ i, addFails i = false) (c : String) (cs : List String)
    (hchunks : split text = c :: cs) :
    (save_to_vector_db split oracle addFails st u text).warned = true ∧
    (save_to_vector_db split oracle addFails st u text).result = .ok (c :: cs).length ∧
    (save_to_vector_db split oracle addFails st u text).state.colls.lookup ("data/" ++ u) =
      some (c :: cs) := by
  unfold save_to_vector_db
  simp only []
  rw [hcl, hchunks, if_neg (List.cons_ne_nil c cs)]
  have hab : addBatches addFails (c :: cs) = (c :: cs, true) := by
    unfold addBatches
    simpa using addBatchesGo_ok addFails hfails ((c :: cs).length) 0 (c :: cs) []
  rw [hab]
  refine ⟨rfl, rfl, ?_⟩
  simp [List.lookup]

/-- The text splitter at the collaborator boundary of the C3-C5 witnesses:
a short non-empty text is one chunk, the empty text splits into no chunks
(`RecursiveCharacterTextSplitter.split_text("") == []`). -/
def split0 : String → List String := fun s => if s = "" then [] else [s]

/-- A store holding built collections for the tenants `duet` and `other`. -/
def stC : VSState :=
  { dirs := ["data/duet", "data/other"],
    colls := [("data/duet", ["old"]), ("data/other", ["x"])] }

/-- Claim C3 counterexample: with every cleanup attempt raising (so
`_force_cleanup_directory` raises after its 3 retries), the rebuild for
`duet` does not fail with a storage error and does not stop: it records
the warning, proceeds, succeeds, and writes the new chunk into the
tenant's collection. -/
theorem c3_counterexample :
    (save_to_vector_db split0 (fun _ => .raises) (fun _ => false) stC "duet" "corpus").warned
      = true ∧
    (save_to_vector_db split0 (fun _ => .raises) (fun _ => false) stC "duet" "corpus").result
      = .ok 1 ∧
    (save_to_vector_db split0 (fun _ => .raises) (fun _ => false) stC "duet"
      "corpus").state.colls.lookup "data/duet" = some ["corpus"] := by decide

/-- Witness for `c3_cleanup_failure_continues` at the concrete store
`stC`, with every cleanup attempt raising and every batch write
succeeding. -/
theorem c3_cleanup_failure_continues_witness :
    (save_to_vector_db split0 (fun _ => .raises) (fun _ => false) stC "duet" "corpus").warned
      = true ∧
    (save_to_vector_db split0 (fun _ => .raises) (fun _ => false) stC "duet" "corpus").result
      = .ok ["corpus"].length :=
  ⟨(c3_cleanup_failure_continues split0 (fun _ => .raises) (fun _ => false) stC "duet" "corpus"
      ("Failed to clean up directory data/duet after 3 attempts. Please manually delete the directory.")
      rfl (fun _ => rfl) "corpus" [] rfl).1,
   (c3_cleanup_failure_continues split0 (fun _ => .raises) (fun _ => false) stC "duet" "corpus"
      ("Failed to clean up directory data/duet after 3 attempts. Please manually delete the directory.")
      rfl (fun _ => rfl) "corpus" [] rfl).2.1⟩

/-! ### Claim C4 -/

/-- Claim C4: a rebuild on a corpus that splits into zero chunks (the
empty corpus in particular) fails with the empty-corpus `ValueError`, no
collection exists for the tenant afterwards (no empty index is created),
and every other tenant's collection and directory are untouched. -/
theorem c4_empty_corpus_isolated (split : String → List String)
    (oracle : Nat → AttemptOutcome) (addFails : Nat → Bool) (st : VSState)
    (u text : String) (hchunks : split text = []) :
    (save_to_vector_db split oracle addFails st u text).result = .emptyCorpus ∧
    (save_to_vector_db split oracle addFails st u text).state.colls.lookup ("data/" ++ u) = none ∧
    ∀ v, v ≠ u →
      (save_to_vector_db split oracle addFails st u text).state.colls.lookup ("data/" ++ v) =
        st.colls.lookup ("data/" ++ v) ∧
      ((("data/" ++ v) ∈ (save_to_vector_db split oracle addFails st u text).state.dirs) ↔
        ("data/" ++ v) ∈ st.dirs) := by
  refine ⟨(save_to_vector_db_empty split oracle addFails st u text hchunks).1,
    (save_to_vector_db_empty split oracle addFails st u text hchunks).2, ?_⟩
  intro v hv
  have hk : ("data/" ++ v : String) ≠ "data/" ++ u := fun he => hv (tenant_path_inj he)
  unfold save_to_vector_db
  simp only []
  rw [hchunks, if_pos rfl]
  constructor
  · exact (lookup_filter_ne _ _ hk _).trans
      ((afterCleanupState_preserves _ st ("data/" ++ u) ("data/" ++ v) hk).1)
  · exact (mem_mkdirp_ne hk).trans
      ((afterCleanupState_preserves _ st ("data/" ++ u) ("data/" ++ v) hk).2)

/-- Witness for `c4_empty_corpus_isolated`: rebuilding `duet` from the
empty corpus against the concrete store `stC` fails with the empty-corpus
error, leaves no `duet` collection, and leaves `other`'s collection as it
was. -/
theorem c4_empty_corpus_isolated_witness :
    split0 "" = [] ∧
    (save_to_vector_db split0 (fun _ => .removed) (fun _ => false) stC "duet" "").result
      = .emptyCorpus ∧
    (save_to_vector_db split0 (fun _ => .removed) (fun _ => false) stC "duet"
      "").state.colls.lookup ("data/" ++ "other") = some ["x"] :=
  ⟨rfl,
   (c4_empty_corpus_isolated split0 (fun _ => .removed) (fun _ => false) stC "duet" "" rfl).1,
   (((c4_empty_corpus_isolated split0 (fun _ => .removed) (fun _ => false) stC "duet" "" rfl).2.2
      "other" (by decide)).1).trans (by decide)⟩

/-! ### Claim C5 -/

/-- Claim C5: the rebuild removes the tenant's existing collection before
chunking or validating the corpus, so a failing rebuild leaves the tenant
absent or partial, never restored: an empty corpus fails with the
empty-corpus error with the tenant's collection gone, and a first-batch
write failure fails the rebuild with the tenant's collection present but
empty — in neither case do the prior contents survive. -/
theorem c5_prior_collection_destroyed (split : String → List String)
    (oracle : Nat → AttemptOutcome) (addFails : Nat → Bool) (st : VSState)
    (u text : String) :
    (split text = [] →
      (save_to_vector_db split oracle addFails st u text).result = .emptyCorpus ∧
      (save_to_vector_db split oracle addFails st u text).state.colls.lookup ("data/" ++ u)
        = none) ∧
    (∀ c cs, split text = c :: cs → addFails 0 = true →
      (save_to_vector_db split oracle addFails st u text).result = .batchError ∧
      (save_to_vector_db split oracle addFails st u text).state.colls.lookup ("data/" ++ u)
        = some []) := by
  constructor
  · intro h
    exact save_to_vector_db_empty split oracle addFails st u text h
  · intro c cs hchunks h0
    unfold save_to_vector_db
    simp only []
    rw [hchunks, if_neg (List.cons_ne_nil c cs)]
    have hab : addBatches addFails (c :: cs) = ([], false) := by
      unfold addBatches
      rw [List.length_cons]
      unfold addBatchesGo
      rw [h0]
      simp
    rw [hab]
    exact ⟨rfl, by simp [List.lookup]⟩

/-- Witness for `c5_prior_collection_destroyed` at the concrete store
`stC`, exercising both failure modes: the empty corpus and a first-batch
write failure; in both cases `duet`'s prior contents `["old"]` are gone. -/
theorem c5_prior_collection_destroyed_witness :
    (split0 "" = [] ∧
      (save_to_vector_db split0 (fun _ => .removed) (fun _ => true) stC "duet" "").result
        = .emptyCorpus) ∧
    (split0 "new" = ["new"] ∧
      (save_to_vector_db split0 (fun _ => .removed) (fun _ => true) stC "duet" "new").result
        = .batchError ∧
      (save_to_vector_db split0 (fun _ => .removed) (fun _ => true) stC "duet"
        "new").state.colls.lookup ("data/" ++ "duet") = some []) :=
  ⟨⟨rfl, ((c5_prior_collection_destroyed split0 (fun _ => .removed) (fun _ => true) stC "duet"
      "").1 rfl).1⟩,
   ⟨by decide,
    ((c5_prior_collection_destroyed split0 (fun _ => .removed) (fun _ => true) stC "duet"
      "new").2 "new" [] (by decide) rfl).1,
    ((c5_prior_collection_destroyed split0 (fun _ => .removed) (fun _ => true) stC "duet"
      "new").2 "new" [] (by decide) rfl).2⟩⟩

/-! ### Claim C10 -/

/-- Claim C10: asking a question for a tenant with no persisted
collection fails with the not-found `ValueError` from `load_collection`
(either flavour: missing directory, or directory without the collection)
before any collaborator is invoked — the trace of embedding, vector-query
and LLM invocations is empty. -/
theorem c10_unbuilt_tenant_not_found (env : RagEnv) (st : VSState) (u q : String)
    (h : st.colls.lookup ("data/" ++ u) = none) :
    (ask_rag env st u q).2 = [] ∧ (∃ e, (ask_rag env st u q).1 = .error e) := by
  have hload : ∃ e, load_collection st u = .error e := by
    unfold load_collection
    simp only []
    split
    · rw [h]
      exact ⟨.collectionNotFound u, rfl⟩
    · exact ⟨.dirNotFound u, rfl⟩
  obtain ⟨e, he⟩ := hload
  unfold ask_rag
  rw [he]
  exact ⟨rfl, ⟨e, rfl⟩⟩

/-- The retrieval bridge's collaborators for the C10 witness. -/
def renvC10 : RagEnv :=
  { embed_query := fun _ => [0],
    queryTop := fun _ _ _ => [],
    llmInvoke := fun _ => .plainString "ans" }

/-- Witness for `c10_unbuilt_tenant_not_found` on a store whose `duet`
directory exists but holds no collection. -/
theorem c10_unbuilt_tenant_not_found_witness :
    ({ dirs := ["data/duet"], colls := [] } : VSState).colls.lookup ("data/" ++ "duet") = none ∧
    (ask_rag renvC10 { dirs := ["data/duet"], colls := [] } "duet" "q").2 = [] :=
  ⟨rfl, (c10_unbuilt_tenant_not_found renvC10 { dirs := ["data/duet"], colls := [] } "duet" "q"
    rfl).1⟩

end UniRag
